import Mathlib

/-!
Shallow embedding of the client-side behaviour layer of the bilingual
Pharmacy Club website, translated from the two scripts of the repository
(`app.js` and `script.js`).  DOM state touched by the scripts is modelled
as explicit record types, DOM mutation as pure state-transition functions,
JavaScript exceptions as `Option`/flag results, and the JavaScript numbers
occurring in the gallery arithmetic as an integer-or-NaN type.
-/

namespace PharmacyClub

/-- JavaScript falsiness for string-or-undefined values: `undefined`/`null`
(modelled as `none`) and the empty string are falsy. -/
def jsFalsy : Option String → Bool
  | none => true
  | some s => s == ""

/-- JavaScript `a || b` on string-or-undefined values: `a` when truthy,
otherwise `b`. -/
def jsOr (a b : Option String) : Option String :=
  if jsFalsy a then b else a

/-- JavaScript `s.startsWith(p)`, computed on the character lists. -/
def jsStartsWith (s p : String) : Bool :=
  p.toList.isPrefixOf s.toList

/-- JavaScript `s.trim()`, computed on the character list (whitespace per
`Char.isWhitespace`). -/
def jsTrim (s : String) : String :=
  ⟨((s.toList.dropWhile Char.isWhitespace).reverse.dropWhile Char.isWhitespace).reverse⟩

/-- A JavaScript number as it occurs in the gallery index arithmetic:
an integer value or `NaN`. -/
inductive JSNum where
  | nan : JSNum
  | num : Int → JSNum
deriving DecidableEq, Repr

/-- JavaScript `+` on such numbers (`NaN` is absorbing). -/
def JSNum.add : JSNum → JSNum → JSNum
  | num a, num b => num (a + b)
  | _, _ => nan

/-- JavaScript `-` on such numbers (`NaN` is absorbing). -/
def JSNum.sub : JSNum → JSNum → JSNum
  | num a, num b => num (a - b)
  | _, _ => nan

/-- JavaScript `%` on such numbers: truncated remainder (the sign follows the
dividend), and any remainder by zero, or with a `NaN` operand, is `NaN`. -/
def JSNum.rem : JSNum → JSNum → JSNum
  | num a, num b => if b = 0 then nan else num (Int.tmod a b)
  | _, _ => nan

namespace App

/-! Model of `app.js`. -/

/-- A DOM element as touched by `updateElementsWithDataAttributes` in
`app.js`: tag name, the element's `type` property (field `etype`), the
`data-en` / `data-ar` attributes (absent attribute = `none`), the displayed
content (the `textContent` branch and the `innerHTML` branch - taken when the
translated text contains a `<br>` marker - both replace this slot), and the
`placeholder` property. -/
structure Elem where
  tagName : String
  etype : String
  dataEn : Option String
  dataAr : Option String
  content : String
  placeholder : String
deriving DecidableEq, Repr

/-- `element.getAttribute('data-' + lang)`: only the attributes `data-en`
and `data-ar` exist on the modelled elements. -/
def Elem.dataAttr (e : Elem) (lang : String) : Option String :=
  if lang = "en" then e.dataEn
  else if lang = "ar" then e.dataAr
  else none

/-- The write performed on an element once a truthy translated `text` has been
found (`updateElementsWithDataAttributes`, inner branches): non-submit inputs
get the text as `placeholder`, option elements as `textContent`, and all other
elements have their displayed content replaced (via `innerHTML` when the text
contains a `<br>` marker, via `textContent` otherwise - both replace the
displayed content slot of the model). -/
def Elem.writeText (e : Elem) (text : String) : Elem :=
  if e.tagName = "INPUT" ∧ e.etype ≠ "submit" then { e with placeholder := text }
  else if e.tagName = "OPTION" then { e with content := text }
  else { e with content := text }

/-- One element of `updateElementsWithDataAttributes(lang)`: the query
`querySelectorAll('[data-en][data-ar]')` only selects elements carrying both
attributes, and a falsy (absent or empty) `data-<lang>` value leaves the
element untouched (`if (text) { ... }`). -/
def updateElem (lang : String) (e : Elem) : Elem :=
  if e.dataEn.isSome ∧ e.dataAr.isSome then
    match e.dataAttr lang with
    | some text => if text = "" then e else e.writeText text
    | none => e
  else e

/-- One element of `updateSelectOptions(lang)`: Option elements inside selects
carrying both attributes get their text re-applied (defensive re-application;
the generic element walk already covers them). -/
def updateOption (lang : String) (e : Elem) : Elem :=
  if e.tagName = "OPTION" ∧ e.dataEn.isSome ∧ e.dataAr.isSome then
    match e.dataAttr lang with
    | some text => if text = "" then e else { e with content := text }
    | none => e
  else e

/-- The document state touched by `applyLanguage`: the `lang` and `dir`
attributes of the root element, the title, and the translatable elements. -/
structure Doc where
  htmlLang : String
  htmlDir : String
  title : String
  elements : List Elem
deriving DecidableEq, Repr

/-- `LanguageManager.applyLanguage(lang)`: set the root `lang` attribute, set
`dir` to `rtl` exactly for Arabic, set the localized title, update all
elements carrying both data attributes, then re-apply the select options. -/
def applyLanguage (lang : String) (d : Doc) : Doc :=
  { htmlLang := lang
    htmlDir := if lang = "ar" then "rtl" else "ltr"
    title := if lang = "ar" then "نادي الصيدلة - الكلية" else "Pharmacy Club - College"
    elements := (d.elements.map (updateElem lang)).map (updateOption lang) }

/-- The state of the `LanguageManager` instance together with the pieces of
its environment that its methods read and write: the document, the backing
store under the key `pharmacy-club-language` (with a flag telling whether
store access succeeds or throws), the `console.warn` count, the text of the
language button, the payload of the last dispatched `languageChanged` event,
and a count of the `applyLanguage` invocations performed. -/
structure LMState where
  currentLang : String
  isRTL : Bool
  doc : Doc
  stored : Option String
  storageOk : Bool
  warnings : Nat
  langButtonText : String
  lastEvent : Option (String × Bool)
  applyCount : Nat
deriving DecidableEq, Repr

/-- `getStoredLanguage()`: the stored item, or `null` when the store throws
(the exception is caught and `null` returned). -/
def getStoredLanguage (st : LMState) : Option String :=
  if st.storageOk then st.stored else none

/-- `setStoredLanguage(lang)`: write the preference; when the store throws,
the exception is caught and a warning is logged instead. -/
def setStoredLanguage (lang : String) (st : LMState) : LMState :=
  if st.storageOk then { st with stored := some lang }
  else { st with warnings := st.warnings + 1 }

/-- `detectBrowserLanguage()`: `navigator.language || navigator.userLanguage`,
then `'ar'` when it starts with `ar`, else `'en'`.  When both signals are
absent, `browserLang` is `undefined` and the `.startsWith` call throws a
TypeError, modelled as `none`. -/
def detectBrowserLanguage (navLanguage navUserLanguage : Option String) : Option String :=
  match jsOr navLanguage navUserLanguage with
  | none => none
  | some browserLang => some (if jsStartsWith browserLang "ar" then "ar" else "en")

/-- The constructor line
`this.currentLang = this.getStoredLanguage() || this.detectBrowserLanguage() || 'en'`:
a truthy stored value wins; otherwise detection runs (`none` when it throws,
in which case the whole constructor throws); the final `|| 'en'` catches a
falsy detection result. -/
def resolveInitialLang (storedResult navLanguage navUserLanguage : Option String) :
    Option String :=
  if jsFalsy storedResult then
    match detectBrowserLanguage navLanguage navUserLanguage with
    | none => none
    | some detected => some (if detected = "" then "en" else detected)
  else storedResult

/-- `updateLanguageButton()`: the button shows the other language's name. -/
def updateLanguageButton (st : LMState) : LMState :=
  { st with langButtonText := if st.currentLang = "en" then "العربية" else "English" }

/-- `init()`: wire the toggle button (no state change), apply the current
language once, and update the toggle button. -/
def LMState.init (st : LMState) : LMState :=
  let st' := { st with doc := applyLanguage st.currentLang st.doc
                       applyCount := st.applyCount + 1 }
  updateLanguageButton st'

/-- The `LanguageManager` constructor run against a document `doc`, a store
content `stored` (with availability `storageOk`) and the two navigator locale
signals.  `none` models the TypeError thrown inside `detectBrowserLanguage`
when both signals are absent: construction fails and nothing is applied. -/
def LanguageManager.construct (stored : Option String) (storageOk : Bool)
    (navLanguage navUserLanguage : Option String) (doc : Doc) : Option LMState :=
  match resolveInitialLang (if storageOk then stored else none) navLanguage navUserLanguage with
  | none => none
  | some lang =>
    some (LMState.init
      { currentLang := lang, isRTL := lang == "ar", doc := doc, stored := stored
        storageOk := storageOk, warnings := 0, langButtonText := ""
        lastEvent := none, applyCount := 0 })

/-- `switchLanguage(lang)`: a no-op when the target equals the current
language; otherwise the state once both scripted delays have run: language and
RTL flag updated, language applied, button updated, preference persisted (the
body's transient `lang-switching` class has been added and removed again), and
the `languageChanged` event dispatched with the new language and its
directionality.  The gallery-data rebuild acts on the gallery state, which is
modelled separately. -/
def switchLanguage (lang : String) (st : LMState) : LMState :=
  if lang = st.currentLang then st
  else
    let st₁ := { st with currentLang := lang, isRTL := lang == "ar" }
    let st₂ := { st₁ with doc := applyLanguage lang st₁.doc
                          applyCount := st₁.applyCount + 1 }
    let st₃ := updateLanguageButton st₂
    let st₄ := setStoredLanguage lang st₃
    { st₄ with lastEvent := some (lang, lang == "ar") }

/-- `toggleLanguage()`: switch to the other of the two supported codes. -/
def toggleLanguage (st : LMState) : LMState :=
  switchLanguage (if st.currentLang = "en" then "ar" else "en") st

/-- A gallery image descriptor as built by `updateGalleryData`. -/
structure GalleryImage where
  src : String
  caption : String
deriving DecidableEq, Repr

/-- The lightbox state of `app.js`: the cursor `currentImageIndex`, the
`galleryImages` list, and the displayed image source, alt text and caption. -/
structure GalleryState where
  currentImageIndex : JSNum
  galleryImages : List GalleryImage
  lightboxSrc : String
  lightboxAlt : String
  lightboxCaption : String
deriving DecidableEq, Repr

/-- `showLightboxImage()`: render only when the image list is non-empty.
`none` models the TypeError thrown by reading `.src` off
`galleryImages[currentImageIndex]` when that indexing yields `undefined`
(negative, out-of-range or `NaN` cursor) - unreachable while the list length
never changes, since the guard is checked first. -/
def showLightboxImage (st : GalleryState) : Option GalleryState :=
  if 0 < st.galleryImages.length then
    match st.currentImageIndex with
    | JSNum.num i =>
      if h : 0 ≤ i ∧ i.toNat < st.galleryImages.length then
        let image := st.galleryImages.get ⟨i.toNat, h.2⟩
        some { st with lightboxSrc := image.src, lightboxAlt := image.caption
                       lightboxCaption := image.caption }
      else none
    | JSNum.nan => none
  else some st

/-- The cursor update of the `lightboxNext` click handler:
`(currentImageIndex + 1) % galleryImages.length`. -/
def nextIndex (len : Nat) (i : JSNum) : JSNum :=
  JSNum.rem (JSNum.add i (JSNum.num 1)) (JSNum.num len)

/-- The cursor update of the `lightboxPrev` click handler:
`(currentImageIndex - 1 + galleryImages.length) % galleryImages.length`. -/
def prevIndex (len : Nat) (i : JSNum) : JSNum :=
  JSNum.rem (JSNum.add (JSNum.sub i (JSNum.num 1)) (JSNum.num len)) (JSNum.num len)

/-- The `lightboxNext` click handler: advance the cursor, then render. -/
def lightboxNextClick (st : GalleryState) : Option GalleryState :=
  showLightboxImage
    { st with currentImageIndex := nextIndex st.galleryImages.length st.currentImageIndex }

/-- The `lightboxPrev` click handler: move the cursor back, then render. -/
def lightboxPrevClick (st : GalleryState) : Option GalleryState :=
  showLightboxImage
    { st with currentImageIndex := prevIndex st.galleryImages.length st.currentImageIndex }

/-- A character admitted by the `[^\s@]+` blocks of the email pattern of
`validateField`: neither whitespace nor an `@` sign. -/
def emailChar (c : Char) : Bool :=
  !c.isWhitespace && c != '@'

/-- Split a character list at its first `'@'`; `none` when there is none. -/
def splitAtFirstAt : List Char → Option (List Char × List Char)
  | [] => none
  | c :: cs =>
    if c = '@' then some ([], cs)
    else
      match splitAtFirstAt cs with
      | none => none
      | some (a, r) => some (c :: a, r)

/-- The test of the anchored email pattern `[^\s@]+@[^\s@]+\.[^\s@]+` from
`validateField` (full-string match).  A string
matches exactly when it splits as A `@` R where A is non-empty with no
whitespace or `@` (so the `@` consumed by the pattern is the first one of the
string), R is non-empty with no whitespace or `@`, and R contains a dot that
is neither its first nor its last character (the blocks before and after the
dot may themselves contain further dots). -/
def emailPatternTest (s : String) : Bool :=
  match splitAtFirstAt s.toList with
  | none => false
  | some (a, r) =>
    !a.isEmpty && a.all emailChar && !r.isEmpty && r.all emailChar &&
      (r.drop 1).dropLast.contains '.'

/-- The `errorMessages` table of `validateField` for one language (the
`select` entry is the field `selectOption`). -/
structure ErrorMessages where
  required : String
  email : String
  selectOption : String
  minLength : String
deriving DecidableEq, Repr

/-- The English entries of the `errorMessages` table. -/
def errorMessagesEn : ErrorMessages :=
  { required := "This field is required"
    email := "Please enter a valid email address"
    selectOption := "Please select an option"
    minLength := "Please provide at least 10 characters" }

/-- The Arabic entries of the `errorMessages` table. -/
def errorMessagesAr : ErrorMessages :=
  { required := "هذا الحقل مطلوب"
    email := "يرجى إدخال عنوان بريد إلكتروني صحيح"
    selectOption := "يرجى اختيار خيار"
    minLength := "يرجى كتابة ١٠ أحرف على الأقل" }

/-- `errorMessages[currentLang]`: defined entries for the two supported
codes, `undefined` (`none`) otherwise. -/
def errorMessagesFor (lang : String) : Option ErrorMessages :=
  if lang = "en" then some errorMessagesEn
  else if lang = "ar" then some errorMessagesAr
  else none

/-- The four message texts of one language's `errorMessages` entry. -/
def localizedMessages (m : ErrorMessages) : List String :=
  [m.required, m.email, m.selectOption, m.minLength]

/-- A form field as read and written by `validateField`: tag name, `type`
property (field `etype`), `required` flag, current value, presence of the
`error` class, and the list of `.error-message` node texts below its parent
(document order; the code removes the first and appends at the end). -/
structure Field where
  tagName : String
  etype : String
  required : Bool
  value : String
  hasErrorClass : Bool
  errorNodes : List String
deriving DecidableEq, Repr

/-- The four checks of `validateField`, run in source order over the trimmed
value; each failing check overwrites the `(isValid, errorMessage)` pair.
`jsTrim` models `String.prototype.trim`, and `String.length` the length
of the value (identical to the JavaScript UTF-16 length on the basic
multilingual plane). -/
def validateChecks (m : ErrorMessages) (f : Field) : Bool × String :=
  let value := jsTrim f.value
  let r₀ := (true, "")
  let r₁ := if f.etype = "email" ∧ value ≠ "" ∧ emailPatternTest value = false then
      (false, m.email) else r₀
  let r₂ := if f.required = true ∧ value = "" then (false, m.required) else r₁
  let r₃ := if f.tagName = "SELECT" ∧ f.required = true ∧ value = "" then
      (false, m.selectOption) else r₂
  let r₄ := if f.tagName = "TEXTAREA" ∧ value ≠ "" ∧ value.length < 10 then
      (false, m.minLength) else r₃
  r₄

/-- Whether the email check of `validateField` fires on `f`. -/
def emailRuleFires (f : Field) : Bool :=
  decide (f.etype = "email" ∧ jsTrim f.value ≠ "" ∧ emailPatternTest (jsTrim f.value) = false)

/-- Whether the required-field check of `validateField` fires on `f`. -/
def requiredRuleFires (f : Field) : Bool :=
  decide (f.required = true ∧ jsTrim f.value = "")

/-- Whether the select-field check of `validateField` fires on `f`. -/
def selectRuleFires (f : Field) : Bool :=
  decide (f.tagName = "SELECT" ∧ f.required = true ∧ jsTrim f.value = "")

/-- Whether the textarea minimum-length check of `validateField` fires on `f`. -/
def minLengthRuleFires (f : Field) : Bool :=
  decide (f.tagName = "TEXTAREA" ∧ jsTrim f.value ≠ "" ∧ (jsTrim f.value).length < 10)

/-- Whether any check of `validateField` fires on `f` (exactly then does the
code read a message off `errorMessages[currentLang]`). -/
def someCheckFires (f : Field) : Bool :=
  emailRuleFires f || requiredRuleFires f || selectRuleFires f || minLengthRuleFires f

/-- The DOM effect of `validateField`: the first existing `.error-message`
node is removed up front; on failure the field gets the `error` class and one
new message node is appended, on success the class is removed. -/
def applyValidation (f : Field) (isValid : Bool) (errorMessage : String) : Field :=
  let afterRemove := f.errorNodes.tail
  if isValid then { f with hasErrorClass := false, errorNodes := afterRemove }
  else { f with hasErrorClass := true, errorNodes := afterRemove ++ [errorMessage] }

/-- `validateField(field)` under current language `lang`: run the checks,
apply the DOM effect, and return the new field state and the returned
validity.  `none` models the TypeError raised by reading a message off
`errorMessages[currentLang]` when a check fails while `currentLang` is not a
supported code (when no check fails that table entry is never read). -/
def validateField (lang : String) (f : Field) : Option (Field × Bool) :=
  match errorMessagesFor lang with
  | some m =>
    let r := validateChecks m f
    some (applyValidation f r.1 r.2, r.1)
  | none =>
    if someCheckFires f then none
    else some (applyValidation f true "", true)

end App

namespace Script

/-! Model of `script.js`. -/

/-- A DOM element as touched by `applyTranslations` in `script.js`: the
`data-i18n` and `data-placeholder-i18n` attributes (absent = `none`), the
text content and the `placeholder` attribute. -/
structure SElem where
  i18nKey : Option String
  placeholderKey : Option String
  textContent : String
  placeholder : String
deriving DecidableEq, Repr

/-- A language-selector button: its `data-lang` attribute and whether it
carries the `active` class. -/
structure LangButton where
  dataLang : String
  active : Bool
deriving DecidableEq, Repr

/-- The state touched by `script.js` language handling: the translatable
elements, the `dir` attribute of the body, the selector buttons, the backing
store under the key `preferredLanguage` (with an availability flag), and
`document.documentElement.dataset.currentLang`. -/
structure SState where
  elems : List SElem
  bodyDir : String
  buttons : List LangButton
  stored : Option String
  storageOk : Bool
  currentLangMarker : Option String
deriving DecidableEq, Repr

/-- The `translations.en` dictionary of `initLanguageSwitcher`. -/
def enDict (key : String) : Option String :=
  if key = "heroTitle" then some "Pharmacy Club"
  else if key = "heroMotto" then some "“The palm: identity and continuous giving. The pill: serving health and community. The book: science, knowledge, and academic excellence.”"
  else if key = "navAbout" then some "About"
  else if key = "navEvents" then some "Events"
  else if key = "navNews" then some "News"
  else if key = "navGallery" then some "Gallery"
  else if key = "navContact" then some "Contact"
  else if key = "aboutHeading" then some "About the Pharmacy Club"
  else if key = "aboutParagraph1" then some "Participation in professional student organizations enriches the pharmacy experience and helps members explore different career paths while sharpening their leadership and communication skills. As part of the college, the club offers opportunities to engage with peers and professionals, share knowledge about clinical pharmacy, and promote excellence in patient care, research and education. Members are encouraged to develop the interdisciplinary skills needed to thrive in diverse health care settings."
  else if key = "aboutParagraph2" then some "Through hands‑on workshops, community service and health outreach, participants refine their clinical and communication abilities, deepen their understanding of patient‑centred care and prepare to improve public health. These experiences embody the club’s motto by emphasising identity and continuous giving, serving health and community and the pursuit of science and knowledge."
  else if key = "eventsHeading" then some "Upcoming Events"
  else if key = "newsHeading" then some "Latest News"
  else if key = "galleryHeading" then some "Gallery"
  else if key = "contactHeading" then some "Contact Us"
  else if key = "contactName" then some "Name"
  else if key = "contactEmail" then some "Email"
  else if key = "contactMessage" then some "Message"
  else if key = "contactSubmit" then some "Send"
  else if key = "contactPlaceholderName" then some "Your name"
  else if key = "contactPlaceholderEmail" then some "your@email.com"
  else if key = "contactPlaceholderMessage" then some "How can we help?"
  else if key = "contactAlert" then some "Thank you for contacting the Pharmacy Club! We will get back to you shortly."
  else none

/-- The `translations.ar` dictionary of `initLanguageSwitcher`. -/
def arDict (key : String) : Option String :=
  if key = "heroTitle" then some "نادي الصيدلة"
  else if key = "heroMotto" then some "“النخلة: الهوية والعطاء المستمر. الحبة: خدمة الصحة والمجتمع. الكتاب: العلم والمعرفة والتفوق الأكاديمي.”"
  else if key = "navAbout" then some "عن النادي"
  else if key = "navEvents" then some "الفعاليات"
  else if key = "navNews" then some "الأخبار"
  else if key = "navGallery" then some "المعرض"
  else if key = "navContact" then some "اتصل بنا"
  else if key = "aboutHeading" then some "عن نادي الصيدلة"
  else if key = "aboutParagraph1" then some "الانضمام إلى المنظمات الطلابية المهنية يثري تجربة الطالب الصيدلي ويساعد الأعضاء على استكشاف مسارات مهنية مختلفة مع تعزيز مهارات القيادة والتواصل. يوفر النادي فرصًا للتفاعل مع الزملاء والمتخصصين، ومشاركة المعرفة حول الصيدلة السريرية، وتعزيز التميز في رعاية المرضى والبحث والتعليم. يشجع الأعضاء على تطوير المهارات المتعددة التخصصات اللازمة للنجاح في بيئات الرعاية الصحية المتنوعة."
  else if key = "aboutParagraph2" then some "من خلال ورش العمل العملية وخدمة المجتمع والتوعية الصحية، يصقل المشاركون مهاراتهم السريرية والاتصالية، ويعمقون فهمهم للرعاية المتمركزة على المريض، ويستعدون لتحسين الصحة العامة. تجسد هذه التجارب شعار النادي بالتأكيد على الهوية والعطاء المستمر، وخدمة الصحة والمجتمع، والسعي إلى العلم والمعرفة."
  else if key = "eventsHeading" then some "الفعاليات القادمة"
  else if key = "newsHeading" then some "آخر الأخبار"
  else if key = "galleryHeading" then some "معرض الصور"
  else if key = "contactHeading" then some "اتصل بنا"
  else if key = "contactName" then some "الاسم"
  else if key = "contactEmail" then some "البريد الإلكتروني"
  else if key = "contactMessage" then some "الرسالة"
  else if key = "contactSubmit" then some "إرسال"
  else if key = "contactPlaceholderName" then some "اسمك"
  else if key = "contactPlaceholderEmail" then some "بريدك الإلكتروني"
  else if key = "contactPlaceholderMessage" then some "كيف يمكننا مساعدتك؟"
  else if key = "contactAlert" then some "شكرا لتواصلك مع نادي الصيدلة! سنعود إليك قريباً."
  else none

/-- `translations[lang] || translations.en`: the dictionary for a supported
code, the English dictionary for any other code. -/
def translationsFor (lang : String) : String → Option String :=
  if lang = "en" then enDict
  else if lang = "ar" then arDict
  else enDict

/-- The per-element body of the first `forEach` walk of `applyTranslations`
(over `[data-i18n]`): an element whose key has a truthy dictionary value gets
its text content replaced; a missing key or a falsy value leaves the element
untouched (`if (dict[key]) ...`). -/
def updateSElemText (dict : String → Option String) (el : SElem) : SElem :=
  match el.i18nKey with
  | some key =>
    match dict key with
    | some v => if v = "" then el else { el with textContent := v }
    | none => el
  | none => el

/-- The per-element body of the second `forEach` walk of `applyTranslations`
(over `[data-placeholder-i18n]`): same rule, writing the `placeholder`
attribute. -/
def updateSElemPlaceholder (dict : String → Option String) (el : SElem) : SElem :=
  match el.placeholderKey with
  | some key =>
    match dict key with
    | some v => if v = "" then el else { el with placeholder := v }
    | none => el
  | none => el

/-- The combined effect of the two walks on one element. -/
def updateSElem (dict : String → Option String) (el : SElem) : SElem :=
  updateSElemPlaceholder dict (updateSElemText dict el)

/-- `applyTranslations(lang)`: update text elements and placeholders, set the
body `dir` attribute (`rtl` exactly for `'ar'`), highlight the matching
selector button, then persist the selection and record the current language
marker.  The `localStorage.setItem` call is not guarded: when the store
throws, the returned flag is `false`, the element/direction/button updates
made before the call are already in place, and the
`document.documentElement.dataset.currentLang` write after it is skipped
(the exception propagates to the caller). -/
def applyTranslations (lang : String) (st : SState) : SState × Bool :=
  let dict := translationsFor lang
  let st₁ := { st with
    elems := st.elems.map (updateSElem dict)
    bodyDir := if lang = "ar" then "rtl" else "ltr"
    buttons := st.buttons.map (fun b : LangButton => { b with active := b.dataLang == lang }) }
  if st₁.storageOk then
    ({ st₁ with stored := some lang, currentLangMarker := some lang }, true)
  else
    (st₁, false)

/-- Line 262 of `script.js`:
`localStorage.getItem('preferredLanguage') || 'en'`. -/
def storedLangOf (stored : Option String) : String :=
  match jsOr stored (some "en") with
  | some s => s
  | none => "en"

/-- The initialization tail of `initLanguageSwitcher`: read the preferred
language (the `getItem` call is unguarded, so an unavailable store makes
initialization itself throw, modelled as `none`) and apply it once. -/
def initLanguageSwitcher (st : SState) : Option (SState × Bool) :=
  if st.storageOk then some (applyTranslations (storedLangOf st.stored) st)
  else none

/-- A record of the news/events JSON data; news items leave `location`
unused. -/
structure ContentItem where
  title : String
  date : String
  location : String
  description : String
deriving DecidableEq, Repr

/-- A top-level field of a parsed JSON data file: an array of records, or
some other value. -/
inductive JField where
  | arr : List ContentItem → JField
  | nonArray : JField
deriving DecidableEq

/-- The fixed error placeholder rendered by the `catch` branch of
`fetchAndRender`. -/
def loadErrorPlaceholder : String :=
  "<p style=\"color: red;\">Unable to load content. If you are viewing this page locally, please run a local web server to allow fetching JSON files.</p>"

/-- The placeholder rendered when the first top-level value is not a
non-empty array. -/
def noEntriesPlaceholder : String :=
  "<p>No entries available.</p>"

/-- `fetchAndRender(url, containerSelector, templateFn)` for one resource:
when the container is missing nothing happens (and no request is issued);
otherwise one fetch is issued, whose outcome is `none` on fetch rejection or
JSON parse failure (rendering the fixed error placeholder) and otherwise the
parsed top-level object.  `Object.values(data)[0]` is its first field value;
a missing, non-array or empty first value renders the no-entries placeholder,
a non-empty array the concatenation of the per-item templates.  The result is
the container's content afterwards together with the number of fetch requests
issued. -/
def fetchAndRender (containerExists : Bool) (orig : String)
    (outcome : Option (List (String × JField))) (templateFn : ContentItem → String) :
    String × Nat :=
  if containerExists then
    match outcome with
    | none => (loadErrorPlaceholder, 1)
    | some data =>
      match (data.map Prod.snd).head? with
      | some (JField.arr items) =>
        if items.length = 0 then (noEntriesPlaceholder, 1)
        else (String.join (items.map templateFn), 1)
      | _ => (noEntriesPlaceholder, 1)
  else (orig, 0)

/-- The `newsTemplate` of `loadJSONContent`; `fmtDate` stands for the
locale-dependent `formatDate` (`toLocaleDateString`). -/
def newsTemplate (fmtDate : String → String) (item : ContentItem) : String :=
  "      <article class=\"news-item\">\n        <h3>" ++ item.title ++
    "</h3>\n        <p class=\"meta\">" ++ fmtDate item.date ++
    "</p>\n        <p>" ++ item.description ++ "</p>\n      </article>"

/-- The `eventTemplate` of `loadJSONContent`. -/
def eventTemplate (fmtDate : String → String) (item : ContentItem) : String :=
  "      <article class=\"event-item\">\n        <h3>" ++ item.title ++
    "</h3>\n        <p class=\"meta\">" ++ fmtDate item.date ++ " | " ++
    item.location ++ "</p>\n        <p>" ++ item.description ++
    "</p>\n      </article>"

/-- `loadJSONContent()`: fetch and render `data/news.json` into `#news-list`
and `data/events.json` into `#events-list`, each through its own template;
the two calls are independent. -/
def loadJSONContent (fmtDate : String → String)
    (newsExists : Bool) (newsOrig : String) (newsOutcome : Option (List (String × JField)))
    (eventsExists : Bool) (eventsOrig : String) (eventsOutcome : Option (List (String × JField))) :
    (String × Nat) × (String × Nat) :=
  (fetchAndRender newsExists newsOrig newsOutcome (newsTemplate fmtDate),
   fetchAndRender eventsExists eventsOrig eventsOutcome (eventTemplate fmtDate))

end Script

/-! Projection helpers for the `LanguageManager` state transitions. -/

namespace App

@[simp] lemma setStoredLanguage_currentLang (lang : String) (st : LMState) :
    (setStoredLanguage lang st).currentLang = st.currentLang := by
  unfold setStoredLanguage; split <;> rfl

@[simp] lemma setStoredLanguage_isRTL (lang : String) (st : LMState) :
    (setStoredLanguage lang st).isRTL = st.isRTL := by
  unfold setStoredLanguage; split <;> rfl

@[simp] lemma setStoredLanguage_doc (lang : String) (st : LMState) :
    (setStoredLanguage lang st).doc = st.doc := by
  unfold setStoredLanguage; split <;> rfl

@[simp] lemma setStoredLanguage_langButtonText (lang : String) (st : LMState) :
    (setStoredLanguage lang st).langButtonText = st.langButtonText := by
  unfold setStoredLanguage; split <;> rfl

@[simp] lemma setStoredLanguage_lastEvent (lang : String) (st : LMState) :
    (setStoredLanguage lang st).lastEvent = st.lastEvent := by
  unfold setStoredLanguage; split <;> rfl

@[simp] lemma setStoredLanguage_applyCount (lang : String) (st : LMState) :
    (setStoredLanguage lang st).applyCount = st.applyCount := by
  unfold setStoredLanguage; split <;> rfl

@[simp] lemma setStoredLanguage_storageOk (lang : String) (st : LMState) :
    (setStoredLanguage lang st).storageOk = st.storageOk := by
  unfold setStoredLanguage; split <;> rfl

end App

/-! Concrete example states used by the witnesses and counterexamples. -/

/-- An example document. -/
def exDoc : App.Doc :=
  { htmlLang := "en", htmlDir := "ltr", title := "", elements := [] }

/-- An example `LanguageManager` state with a working store. -/
def exLMState : App.LMState :=
  { currentLang := "en", isRTL := false, doc := exDoc, stored := none
    storageOk := true, warnings := 0, langButtonText := "English"
    lastEvent := none, applyCount := 1 }

/-- An example `script.js` state with a working store. -/
def exSState : Script.SState :=
  { elems := [], bodyDir := "ltr", buttons := [], stored := none
    storageOk := true, currentLangMarker := none }

/-- An example `script.js` state whose store throws. -/
def exSStateNoStorage : Script.SState :=
  { exSState with storageOk := false }

/-! Claim C1. -/

/-- Claim C1: for every supported language code L in {en, ar}, applying L sets
the document direction attribute to `rtl` iff L is `ar` and to `ltr`
otherwise, together with the matching language marker - for `applyLanguage`
of app.js (root `dir` and `lang` attributes) and for `applyTranslations` of
script.js (body `dir` attribute and the `dataset.currentLang` marker, with the
store available). -/
theorem claim1_apply_direction (L : String) (hL : L = "en" ∨ L = "ar")
    (d : App.Doc) (s : Script.SState) (hs : s.storageOk = true) :
    ((App.applyLanguage L d).htmlDir = "rtl" ↔ L = "ar") ∧
    (L ≠ "ar" → (App.applyLanguage L d).htmlDir = "ltr") ∧
    (App.applyLanguage L d).htmlLang = L ∧
    ((Script.applyTranslations L s).1.bodyDir = "rtl" ↔ L = "ar") ∧
    (L ≠ "ar" → (Script.applyTranslations L s).1.bodyDir = "ltr") ∧
    (Script.applyTranslations L s).1.currentLangMarker = some L := by
  rcases hL with h | h <;> subst h <;>
    simp [App.applyLanguage, Script.applyTranslations, hs]

/-- Witness for claim C1, at L = ar on concrete states. -/
theorem claim1_witness :
    ((App.applyLanguage "ar" exDoc).htmlDir = "rtl" ↔ "ar" = "ar") ∧
    ("ar" ≠ "ar" → (App.applyLanguage "ar" exDoc).htmlDir = "ltr") ∧
    (App.applyLanguage "ar" exDoc).htmlLang = "ar" ∧
    ((Script.applyTranslations "ar" exSState).1.bodyDir = "rtl" ↔ "ar" = "ar") ∧
    ("ar" ≠ "ar" → (Script.applyTranslations "ar" exSState).1.bodyDir = "ltr") ∧
    (Script.applyTranslations "ar" exSState).1.currentLangMarker = some "ar" :=
  claim1_apply_direction "ar" (Or.inr rfl) exDoc exSState rfl

/-! Claim C2. -/

/-- Claim C2: starting from a current language L in {en, ar}, two invocations
of `toggleLanguage` (each completing via `switchLanguage`) return the active
language to L, and a `switchLanguage` whose target equals the current
language is a no-op. -/
theorem claim2_toggle_twice (st : App.LMState) (L : String)
    (hL : L = "en" ∨ L = "ar") (hcur : st.currentLang = L) :
    (App.toggleLanguage (App.toggleLanguage st)).currentLang = L ∧
    App.switchLanguage st.currentLang st = st := by
  constructor
  · rcases hL with h | h <;> subst h <;>
      simp [App.toggleLanguage, App.switchLanguage, App.updateLanguageButton, hcur]
  · simp [App.switchLanguage]

/-- Witness for claim C2 on a concrete state with current language en. -/
theorem claim2_witness :
    (App.toggleLanguage (App.toggleLanguage exLMState)).currentLang = "en" ∧
    App.switchLanguage exLMState.currentLang exLMState = exLMState :=
  claim2_toggle_twice exLMState "en" (Or.inl rfl) rfl

/-! Claim C3. -/

/-- Counterexample to claim C3 as stated: on the script.js write path
(`localStorage.setItem` inside `applyTranslations`) a persistence failure is
not caught, logged and ignored - the call does not complete (the exception
propagates, completion flag `false`) and the current-language marker is not
set to the new language. -/
theorem claim3_counterexample :
    (Script.applyTranslations "ar" exSStateNoStorage).2 = false ∧
    (Script.applyTranslations "ar" exSStateNoStorage).1.currentLangMarker ≠ some "ar" := by
  constructor <;> simp [Script.applyTranslations, exSStateNoStorage, exSState]

/-- Claim C3 amended: in app.js, a store failure during `switchLanguage` is
caught, logged as one warning and otherwise ignored - the resulting document,
language state, RTL flag, button text and dispatched event are identical to
the working-store run, with only the stored value (unchanged) and warning
count differing.  In script.js the write inside `applyTranslations` is
unguarded: the element, direction and button updates preceding it still
complete exactly as in the working-store run, but the exception propagates
uncaught and the current-language marker write after it is skipped. -/
theorem claim3_amended (st : App.LMState) (lang : String) (h : lang ≠ st.currentLang)
    (s : Script.SState) (hs : s.storageOk = false) :
    ((App.switchLanguage lang { st with storageOk := false }).doc,
      (App.switchLanguage lang { st with storageOk := false }).currentLang,
      (App.switchLanguage lang { st with storageOk := false }).isRTL,
      (App.switchLanguage lang { st with storageOk := false }).langButtonText,
      (App.switchLanguage lang { st with storageOk := false }).lastEvent) =
     ((App.switchLanguage lang { st with storageOk := true }).doc,
      (App.switchLanguage lang { st with storageOk := true }).currentLang,
      (App.switchLanguage lang { st with storageOk := true }).isRTL,
      (App.switchLanguage lang { st with storageOk := true }).langButtonText,
      (App.switchLanguage lang { st with storageOk := true }).lastEvent) ∧
    (App.switchLanguage lang { st with storageOk := false }).stored = st.stored ∧
    (App.switchLanguage lang { st with storageOk := false }).warnings = st.warnings + 1 ∧
    (Script.applyTranslations lang s).2 = false ∧
    (Script.applyTranslations lang s).1.elems =
      (Script.applyTranslations lang { s with storageOk := true }).1.elems ∧
    (Script.applyTranslations lang s).1.bodyDir =
      (Script.applyTranslations lang { s with storageOk := true }).1.bodyDir ∧
    (Script.applyTranslations lang s).1.buttons =
      (Script.applyTranslations lang { s with storageOk := true }).1.buttons ∧
    (Script.applyTranslations lang s).1.currentLangMarker = s.currentLangMarker ∧
    (Script.applyTranslations lang s).1.stored = s.stored := by
  have h' : ¬(lang = st.currentLang) := h
  refine ⟨?_, ?_, ?_, ?_, ?_, ?_, ?_, ?_, ?_⟩ <;>
    simp [App.switchLanguage, App.updateLanguageButton, App.setStoredLanguage,
          Script.applyTranslations, h', hs]

/-- Witness for claim C3 amended, switching a concrete state to Arabic with a
failing store. -/
theorem claim3_witness :
    ((App.switchLanguage "ar" { exLMState with storageOk := false }).doc,
      (App.switchLanguage "ar" { exLMState with storageOk := false }).currentLang,
      (App.switchLanguage "ar" { exLMState with storageOk := false }).isRTL,
      (App.switchLanguage "ar" { exLMState with storageOk := false }).langButtonText,
      (App.switchLanguage "ar" { exLMState with storageOk := false }).lastEvent) =
     ((App.switchLanguage "ar" { exLMState with storageOk := true }).doc,
      (App.switchLanguage "ar" { exLMState with storageOk := true }).currentLang,
      (App.switchLanguage "ar" { exLMState with storageOk := true }).isRTL,
      (App.switchLanguage "ar" { exLMState with storageOk := true }).langButtonText,
      (App.switchLanguage "ar" { exLMState with storageOk := true }).lastEvent) ∧
    (App.switchLanguage "ar" { exLMState with storageOk := false }).stored = exLMState.stored ∧
    (App.switchLanguage "ar" { exLMState with storageOk := false }).warnings =
      exLMState.warnings + 1 ∧
    (Script.applyTranslations "ar" exSStateNoStorage).2 = false ∧
    (Script.applyTranslations "ar" exSStateNoStorage).1.elems =
      (Script.applyTranslations "ar" { exSStateNoStorage with storageOk := true }).1.elems ∧
    (Script.applyTranslations "ar" exSStateNoStorage).1.bodyDir =
      (Script.applyTranslations "ar" { exSStateNoStorage with storageOk := true }).1.bodyDir ∧
    (Script.applyTranslations "ar" exSStateNoStorage).1.buttons =
      (Script.applyTranslations "ar" { exSStateNoStorage with storageOk := true }).1.buttons ∧
    (Script.applyTranslations "ar" exSStateNoStorage).1.currentLangMarker =
      exSStateNoStorage.currentLangMarker ∧
    (Script.applyTranslations "ar" exSStateNoStorage).1.stored = exSStateNoStorage.stored :=
  claim3_amended exLMState "ar" (by decide) exSStateNoStorage rfl

/-! Claim C4. -/

/-- The initialization rule as the specification sentence states it (stored
preference if present; otherwise `ar` for a locale signal starting with `ar`,
else `en`; `en` also when the signal is absent), written out for comparison
with the two implementations. -/
def specInitialLanguage (stored : Option String) (locale : Option String) : String :=
  match stored with
  | some s => s
  | none =>
    match locale with
    | some l => if jsStartsWith l "ar" then "ar" else "en"
    | none => "en"

/-- Counterexample to claim C4 as stated: with no stored preference, script.js
resolves to en even when the locale signal is Arabic (it performs no locale
detection at all), and app.js does not fall back to en when both locale
signals are absent - `detectBrowserLanguage` throws and resolution fails
(`none`), so nothing is applied. -/
theorem claim4_counterexample :
    Script.storedLangOf none = "en" ∧
    specInitialLanguage none (some "ar-SA") = "ar" ∧
    ("en" : String) ≠ "ar" ∧
    App.resolveInitialLang none none none = none ∧
    specInitialLanguage none none = "en" := by
  refine ⟨rfl, by decide, by decide, rfl, rfl⟩

/-- Claim C4 amended: app.js resolves the initial language as the non-empty
stored preference when there is one; otherwise, when at least one navigator
locale signal is truthy, as ar for a signal starting with ar and en otherwise
(unrecognized locales included); when both signals are falsy, detection
throws and no language is applied.  script.js resolves the non-empty stored
preference when there is one and otherwise en, with no locale detection.  In
both implementations a successful initialization applies the resolved
language exactly once. -/
theorem claim4_amended (navLanguage navUserLanguage : Option String)
    (s l : String) (stored : Option String) (ok : Bool) (doc : App.Doc) :
    (s ≠ "" → App.resolveInitialLang (some s) navLanguage navUserLanguage = some s) ∧
    (jsOr navLanguage navUserLanguage = some l →
      App.resolveInitialLang none navLanguage navUserLanguage =
        some (if jsStartsWith l "ar" then "ar" else "en")) ∧
    (jsOr navLanguage navUserLanguage = none →
      App.resolveInitialLang none navLanguage navUserLanguage = none) ∧
    Script.storedLangOf none = "en" ∧
    (s ≠ "" → Script.storedLangOf (some s) = s) ∧
    (∀ st : App.LMState,
      App.LanguageManager.construct stored ok navLanguage navUserLanguage doc = some st →
      st.applyCount = 1 ∧ st.doc = App.applyLanguage st.currentLang doc) ∧
    (∀ sst : Script.SState, sst.storageOk = true →
      Script.initLanguageSwitcher sst =
        some (Script.applyTranslations (Script.storedLangOf sst.stored) sst)) := by
  refine ⟨?_, ?_, ?_, rfl, ?_, ?_, ?_⟩
  · intro hs
    simp [App.resolveInitialLang, jsFalsy, hs]
  · intro hl
    by_cases hstart : jsStartsWith l "ar" <;>
      simp [App.resolveInitialLang, App.detectBrowserLanguage, jsFalsy, hl, hstart]
  · intro hl
    simp [App.resolveInitialLang, App.detectBrowserLanguage, jsFalsy, hl]
  · intro hs
    simp [Script.storedLangOf, jsOr, jsFalsy, hs]
  · intro st hst
    unfold App.LanguageManager.construct at hst
    rcases hres : App.resolveInitialLang (if ok then stored else none)
        navLanguage navUserLanguage with _ | lang <;> rw [hres] at hst
    · exact absurd hst (by simp)
    · simp only [Option.some.injEq] at hst
      subst hst
      simp [App.LMState.init, App.updateLanguageButton]
  · intro sst hok
    simp [Script.initLanguageSwitcher, hok]

/-- Witness for claim C4 amended at concrete inputs: an Arabic locale signal
with no stored preference resolves to ar in app.js, absent signals make
app.js resolution fail, and script.js falls back to en only through the
stored-or-en rule. -/
theorem claim4_witness :
    App.resolveInitialLang (some "en") (some "ar-SA") none = some "en" ∧
    App.resolveInitialLang none (some "ar-SA") none = some "ar" ∧
    App.resolveInitialLang none none none = none ∧
    Script.storedLangOf (some "en") = "en" := by
  have h := claim4_amended (some "ar-SA") none "en" "ar-SA" none true exDoc
  have h' := claim4_amended none none "en" "x" none true exDoc
  refine ⟨h.1 (by decide), ?_, h'.2.2.1 rfl, h.2.2.2.2.1 (by decide)⟩
  have h2 := h.2.1 rfl
  simpa [show jsStartsWith "ar-SA" "ar" = true by decide] using h2

/-! Claims C5 and C10: analysis of validateField. -/

lemma tail_of_length_le_one {α : Type} (l : List α) (h : l.length ≤ 1) :
    l.tail = [] := by
  cases l with
  | nil => rfl
  | cons a t =>
    cases t with
    | nil => rfl
    | cons b u => simp at h

/-- The cascade of the four checks, characterized: the returned validity is
the negation of any check firing, and the returned message is the one of the
latest firing check in source order (email, required, select, minimum
length). -/
lemma validateChecks_eq (m : App.ErrorMessages) (f : App.Field) :
    App.validateChecks m f =
      (!App.someCheckFires f,
       if App.minLengthRuleFires f then m.minLength
       else if App.selectRuleFires f then m.selectOption
       else if App.requiredRuleFires f then m.required
       else if App.emailRuleFires f then m.email
       else "") := by
  simp only [App.validateChecks, App.someCheckFires, App.emailRuleFires,
    App.requiredRuleFires, App.selectRuleFires, App.minLengthRuleFires,
    decide_eq_true_eq]
  split_ifs <;> simp_all [Bool.not_eq_true] <;>
    cases hreq : f.required <;> simp_all <;> tauto

/-- Claim C5: for a supported current language and a field whose parent holds
at most one message node (every state the validator itself can produce),
`validateField` completes and reports failure exactly when one of the four
known invalid cases fires; on failure the field is marked invalid and exactly
one error-message node - carrying one of that language's four localized
messages - is present; on success no invalid mark and zero message nodes
remain; and in all cases at most one message node is left, so repeated
invocations keep the count at zero or one. -/
theorem claim5_validateField (lang : String) (f : App.Field)
    (hlang : lang = "en" ∨ lang = "ar") (hn : f.errorNodes.length ≤ 1) :
    ∃ m r, App.errorMessagesFor lang = some m ∧
      App.validateField lang f = some r ∧
      r.2 = !App.someCheckFires f ∧
      (App.someCheckFires f = true → r.1.hasErrorClass = true ∧
        r.1.errorNodes.length = 1 ∧
        ∀ t ∈ r.1.errorNodes, t ∈ App.localizedMessages m) ∧
      (App.someCheckFires f = false → r.1.hasErrorClass = false ∧
        r.1.errorNodes = []) ∧
      r.1.errorNodes.length ≤ 1 := by
  obtain ⟨m, hm⟩ : ∃ m, App.errorMessagesFor lang = some m := by
    rcases hlang with h | h <;> subst h <;> exact ⟨_, rfl⟩
  have htail : f.errorNodes.tail = [] := tail_of_length_le_one _ hn
  have hv : App.validateField lang f =
      some (App.applyValidation f (App.validateChecks m f).1 (App.validateChecks m f).2,
            (App.validateChecks m f).1) := by
    simp only [App.validateField, hm]
  rw [validateChecks_eq] at hv
  by_cases hb : App.someCheckFires f = true
  · refine ⟨m, _, hm, hv, ?_, ?_, ?_, ?_⟩
    · simp [hb]
    · intro _
      have hmsg : (if App.minLengthRuleFires f then m.minLength
          else if App.selectRuleFires f then m.selectOption
          else if App.requiredRuleFires f then m.required
          else if App.emailRuleFires f then m.email
          else "") ∈ App.localizedMessages m := by
        have hb' := hb
        simp only [App.someCheckFires, Bool.or_eq_true] at hb'
        split_ifs <;> simp_all [App.localizedMessages]
      simp [App.applyValidation, hb, htail, hmsg]
    · intro hcontra; rw [hcontra] at hb; exact absurd hb (by simp)
    · simp [App.applyValidation, hb, htail]
  · have hb' : App.someCheckFires f = false := by
      revert hb; cases App.someCheckFires f <;> simp
    refine ⟨m, _, hm, hv, ?_, ?_, ?_, ?_⟩
    · simp [hb']
    · intro hcontra; rw [hcontra] at hb'; exact absurd hb' (by simp)
    · intro _
      simp [App.applyValidation, hb', htail]
    · simp [App.applyValidation, hb', htail]

/-- An example invalid field: a required email input left empty. -/
def exEmptyEmailField : App.Field :=
  { tagName := "INPUT", etype := "email", required := true, value := "   "
    hasErrorClass := false, errorNodes := [] }

/-- An example valid field: a textarea with a long enough message. -/
def exValidTextarea : App.Field :=
  { tagName := "TEXTAREA", etype := "textarea", required := true
    value := "hello there, I would like to join"
    hasErrorClass := true, errorNodes := ["This field is required"] }

/-- Witness for claim C5: a required empty email field under English. -/
theorem claim5_witness :
    ∃ m r, App.errorMessagesFor "en" = some m ∧
      App.validateField "en" exEmptyEmailField = some r ∧
      r.2 = !App.someCheckFires exEmptyEmailField ∧
      (App.someCheckFires exEmptyEmailField = true → r.1.hasErrorClass = true ∧
        r.1.errorNodes.length = 1 ∧
        ∀ t ∈ r.1.errorNodes, t ∈ App.localizedMessages m) ∧
      (App.someCheckFires exEmptyEmailField = false → r.1.hasErrorClass = false ∧
        r.1.errorNodes = []) ∧
      r.1.errorNodes.length ≤ 1 :=
  claim5_validateField "en" exEmptyEmailField (Or.inl rfl) (by decide)

/-- An example field for claim C10: a required select with no selection. -/
def exSelectField : App.Field :=
  { tagName := "SELECT", etype := "select-one", required := true, value := ""
    hasErrorClass := false, errorNodes := [] }

/-- Counterexample to claim C10 as stated: for a required empty SELECT field
the reported message is the select message, not the required-field message -
the select check runs after the required check and overwrites its message. -/
theorem claim10_counterexample :
    App.validateField "en" exSelectField =
      some ({ exSelectField with
                hasErrorClass := true
                errorNodes := ["Please select an option"] }, false) ∧
    ("Please select an option" : String) ≠ "This field is required" := by
  exact ⟨by decide, by decide⟩

/-- Claim C10 amended: the message reported by the check cascade is the one
of the latest firing rule in the fixed order email, required, select, minimum
length (so the email and minimum-length rules, which only fire on non-empty
trimmed values, never mask the required message; a required empty non-SELECT
field reports the required message, while a required empty SELECT field
reports the select message, which fires later). -/
theorem claim10_message_precedence (m : App.ErrorMessages) (f : App.Field) :
    (App.validateChecks m f).2 =
      (if App.minLengthRuleFires f then m.minLength
       else if App.selectRuleFires f then m.selectOption
       else if App.requiredRuleFires f then m.required
       else if App.emailRuleFires f then m.email
       else "") ∧
    (f.required = true → jsTrim f.value = "" → f.tagName ≠ "SELECT" →
      (App.validateChecks m f).2 = m.required) ∧
    (f.required = true → jsTrim f.value = "" → f.tagName = "SELECT" →
      (App.validateChecks m f).2 = m.selectOption) := by
  refine ⟨congrArg Prod.snd (validateChecks_eq m f), ?_, ?_⟩
  · intro hreq hval hsel
    rw [validateChecks_eq]
    simp [App.minLengthRuleFires, App.selectRuleFires, App.requiredRuleFires,
          hreq, hval, hsel]
  · intro hreq hval hsel
    rw [validateChecks_eq]
    simp [App.minLengthRuleFires, App.selectRuleFires, App.requiredRuleFires,
          hreq, hval, hsel]

/-- Witness for claim C10 amended: the required empty SELECT field reports
the select message and a required empty INPUT the required message. -/
theorem claim10_witness :
    (App.validateChecks App.errorMessagesEn exSelectField).2 = "Please select an option" ∧
    (App.validateChecks App.errorMessagesEn exEmptyEmailField).2 = "This field is required" := by
  constructor
  · exact (claim10_message_precedence App.errorMessagesEn exSelectField).2.2
      rfl (by decide) rfl
  · exact (claim10_message_precedence App.errorMessagesEn exEmptyEmailField).2.1
      rfl (by decide) (by decide)

/-! Claims C6 and C7: gallery navigation. -/

lemma nextIndex_num (n : Nat) (i : Int) (hn : 0 < (n : Int)) (h0 : 0 ≤ i) :
    App.nextIndex n (JSNum.num i) = JSNum.num ((i + 1) % n) := by
  unfold App.nextIndex
  simp only [JSNum.add, JSNum.rem, if_neg (by omega : ¬((n : Int) = 0))]
  congr 1
  exact Int.tmod_eq_emod (by omega) (by omega)

lemma prevIndex_num (n : Nat) (i : Int) (hn : 0 < (n : Int)) (h0 : 0 ≤ i) :
    App.prevIndex n (JSNum.num i) = JSNum.num ((i - 1 + n) % n) := by
  unfold App.prevIndex
  simp only [JSNum.add, JSNum.sub, JSNum.rem, if_neg (by omega : ¬((n : Int) = 0))]
  congr 1
  exact Int.tmod_eq_emod (by omega) (by omega)

lemma nextIndex_iterate (n : Nat) (i : Int) (hn : 0 < (n : Int)) (h0 : 0 ≤ i)
    (h1 : i < (n : Int)) (k : Nat) :
    (App.nextIndex n)^[k] (JSNum.num i) = JSNum.num ((i + k) % n) := by
  induction k with
  | zero => simp [Int.emod_eq_of_lt h0 h1]
  | succ k ih =>
    rw [Function.iterate_succ_apply', ih]
    have hmod0 : 0 ≤ (i + (k : Int)) % n := Int.emod_nonneg _ (by omega)
    rw [nextIndex_num n _ hn hmod0]
    congr 1
    rw [Int.emod_add_emod]
    push_cast
    ring_nf

lemma showLightboxImage_some (st : App.GalleryState) (j : Int)
    (hj : st.currentImageIndex = JSNum.num j) (h0 : 0 ≤ j)
    (h1 : j < (st.galleryImages.length : Int)) :
    ∃ st', App.showLightboxImage st = some st' ∧
      st'.currentImageIndex = st.currentImageIndex := by
  have hcond : 0 ≤ j ∧ j.toNat < st.galleryImages.length := ⟨h0, by omega⟩
  simp only [App.showLightboxImage, hj]
  rw [if_pos (show 0 < st.galleryImages.length by omega), dif_pos hcond]
  exact ⟨_, rfl, rfl⟩

/-- Claim C6: on a gallery of N at least 1 images with cursor i in [0, N-1],
one next() or previous() cursor step stays in [0, N-1], both click handlers
succeed and move the cursor by exactly that step, and N consecutive next()
steps return the cursor to i. -/
theorem claim6_gallery_wraparound (n : Nat) (i : Int) (st : App.GalleryState)
    (hn : 1 ≤ n) (h0 : 0 ≤ i) (h1 : i < (n : Int))
    (hlen : st.galleryImages.length = n) (hidx : st.currentImageIndex = JSNum.num i) :
    (∃ j : Int, App.nextIndex n (JSNum.num i) = JSNum.num j ∧ 0 ≤ j ∧ j < (n : Int)) ∧
    (∃ j : Int, App.prevIndex n (JSNum.num i) = JSNum.num j ∧ 0 ≤ j ∧ j < (n : Int)) ∧
    (App.nextIndex n)^[n] (JSNum.num i) = JSNum.num i ∧
    (∃ st', App.lightboxNextClick st = some st' ∧
      st'.currentImageIndex = App.nextIndex n (JSNum.num i)) ∧
    (∃ st', App.lightboxPrevClick st = some st' ∧
      st'.currentImageIndex = App.prevIndex n (JSNum.num i)) := by
  have hnn : (0 : Int) < n := by omega
  have hnext := nextIndex_num n i hnn h0
  have hprev := prevIndex_num n i hnn h0
  have hb1 : 0 ≤ (i + 1) % (n : Int) := Int.emod_nonneg _ (by omega)
  have hb2 : (i + 1) % (n : Int) < n := Int.emod_lt_of_pos _ hnn
  have hp1 : 0 ≤ (i - 1 + n) % (n : Int) := Int.emod_nonneg _ (by omega)
  have hp2 : (i - 1 + n) % (n : Int) < n := Int.emod_lt_of_pos _ hnn
  refine ⟨⟨_, hnext, hb1, hb2⟩, ⟨_, hprev, hp1, hp2⟩, ?_, ?_, ?_⟩
  · rw [nextIndex_iterate n i hnn h0 h1 n]
    congr 1
    rw [show (i + (n : Int)) = i + (n : Int) * 1 by ring, Int.add_mul_emod_self_left,
        Int.emod_eq_of_lt h0 h1]
  · have hst1 : ({ st with currentImageIndex := App.nextIndex st.galleryImages.length st.currentImageIndex } : App.GalleryState).currentImageIndex = JSNum.num ((i + 1) % n) := by
      simp only [hlen, hidx, hnext]
    obtain ⟨st', hs, hi'⟩ := showLightboxImage_some _ _ hst1 hb1 (by simpa [hlen] using hb2)
    refine ⟨st', ?_, ?_⟩
    · unfold App.lightboxNextClick
      exact hs
    · rw [hi', hst1, hnext]
  · have hst1 : ({ st with currentImageIndex := App.prevIndex st.galleryImages.length st.currentImageIndex } : App.GalleryState).currentImageIndex = JSNum.num ((i - 1 + n) % n) := by
      simp only [hlen, hidx, hprev]
    obtain ⟨st', hs, hi'⟩ := showLightboxImage_some _ _ hst1 hp1 (by simpa [hlen] using hp2)
    refine ⟨st', ?_, ?_⟩
    · unfold App.lightboxPrevClick
      exact hs
    · rw [hi', hst1, hprev]

/-- A concrete gallery with three images and cursor 1. -/
def exGallery3 : App.GalleryState :=
  { currentImageIndex := JSNum.num 1
    galleryImages := [{ src := "a.jpg", caption := "A" }, { src := "b.jpg", caption := "B" },
      { src := "c.jpg", caption := "C" }]
    lightboxSrc := "", lightboxAlt := "", lightboxCaption := "" }

/-- Witness for claim C6 on the three-image gallery at cursor 1. -/
theorem claim6_witness :
    (∃ j : Int, App.nextIndex 3 (JSNum.num 1) = JSNum.num j ∧ 0 ≤ j ∧ j < (3 : Int)) ∧
    (∃ j : Int, App.prevIndex 3 (JSNum.num 1) = JSNum.num j ∧ 0 ≤ j ∧ j < (3 : Int)) ∧
    (App.nextIndex 3)^[3] (JSNum.num 1) = JSNum.num 1 ∧
    (∃ st', App.lightboxNextClick exGallery3 = some st' ∧
      st'.currentImageIndex = App.nextIndex 3 (JSNum.num 1)) ∧
    (∃ st', App.lightboxPrevClick exGallery3 = some st' ∧
      st'.currentImageIndex = App.prevIndex 3 (JSNum.num 1)) :=
  claim6_gallery_wraparound 3 1 exGallery3 (by decide) (by decide) (by decide) rfl rfl

/-- The empty gallery. -/
def exEmptyGallery : App.GalleryState :=
  { currentImageIndex := JSNum.num 0, galleryImages := [], lightboxSrc := ""
    lightboxAlt := "", lightboxCaption := "" }

/-- Counterexample to claim C7 as stated: with an empty image list a next()
step does not leave the cursor unchanged - the update (0 + 1) % 0 yields NaN,
so the cursor changes from 0 to NaN. -/
theorem claim7_counterexample :
    App.lightboxNextClick exEmptyGallery ≠ some exEmptyGallery ∧
    App.lightboxNextClick exEmptyGallery =
      some { exEmptyGallery with currentImageIndex := JSNum.nan } := by
  exact ⟨by decide, by decide⟩

/-- Claim C7 amended: with an empty image list, next() and previous() raise no
error (each handler returns a state) and `showLightboxImage` renders nothing,
leaving the image list, the displayed lightbox content and all other state
unchanged - except for the cursor, which becomes NaN (a modulo by the zero
list length) instead of staying unchanged. -/
theorem claim7_empty_gallery (st : App.GalleryState) (h : st.galleryImages = []) :
    App.lightboxNextClick st = some { st with currentImageIndex := JSNum.nan } ∧
    App.lightboxPrevClick st = some { st with currentImageIndex := JSNum.nan } := by
  cases hx : st.currentImageIndex <;>
    constructor <;>
      simp [App.lightboxNextClick, App.lightboxPrevClick, App.nextIndex, App.prevIndex,
        App.showLightboxImage, JSNum.add, JSNum.sub, JSNum.rem, h, hx]

/-- Witness for claim C7 amended on the concrete empty gallery. -/
theorem claim7_witness :
    App.lightboxNextClick exEmptyGallery =
      some { exEmptyGallery with currentImageIndex := JSNum.nan } ∧
    App.lightboxPrevClick exEmptyGallery =
      some { exEmptyGallery with currentImageIndex := JSNum.nan } :=
  claim7_empty_gallery exEmptyGallery rfl

/-! Claim C8. -/

/-- The present per-language value of an element, as claim C8 speaks of it:
the target language's data attribute value, provided the element carries both
per-language attributes and the value is non-empty; `none` otherwise. -/
def presentDataValue (lang : String) (e : App.Elem) : Option String :=
  if e.dataEn.isSome ∧ e.dataAr.isSome then
    match e.dataAttr lang with
    | some t => if t = "" then none else some t
    | none => none
  else none

lemma updateSElemPlaceholder_textContent (dict : String → Option String)
    (el : Script.SElem) :
    (Script.updateSElemPlaceholder dict el).textContent = el.textContent := by
  unfold Script.updateSElemPlaceholder
  rcases hp : el.placeholderKey with _ | pkey
  · rfl
  · rcases hd : dict pkey with _ | v
    · simp [hd]
    · by_cases hv : v = "" <;> simp [hd, hv]

lemma updateSElem_textContent (dict : String → Option String) (el : Script.SElem) :
    (Script.updateSElem dict el).textContent =
      (match el.i18nKey with
       | some key =>
         match dict key with
         | some v => if v = "" then el.textContent else v
         | none => el.textContent
       | none => el.textContent) := by
  unfold Script.updateSElem
  rw [updateSElemPlaceholder_textContent]
  unfold Script.updateSElemText
  rcases hk : el.i18nKey with _ | key
  · rfl
  · rcases hd : dict key with _ | v
    · simp [hd]
    · by_cases hv : v = "" <;> simp [hd, hv]

/-- Claim C8: a translatable node whose localized value for the target
language is missing (absent per-language attribute, empty value, or - in the
catalog mechanism - a key absent from the dictionary) keeps its displayed
content unchanged instead of being blanked, and every node with a present
value is updated to it; the full walks are the per-element maps. -/
theorem claim8_missing_translation (lang : String) (e : App.Elem)
    (dict : String → Option String) (el : Script.SElem)
    (d : App.Doc) (s : Script.SState) :
    (presentDataValue lang e = none →
      App.updateElem lang e = e ∧ App.updateOption lang e = e) ∧
    (∀ t, presentDataValue lang e = some t →
      App.updateElem lang e = App.Elem.writeText e t) ∧
    (App.applyLanguage lang d).elements =
      (d.elements.map (App.updateElem lang)).map (App.updateOption lang) ∧
    (el.i18nKey = none → (Script.updateSElem dict el).textContent = el.textContent) ∧
    (∀ key, el.i18nKey = some key → (dict key = none ∨ dict key = some "") →
      (Script.updateSElem dict el).textContent = el.textContent) ∧
    (∀ key v, el.i18nKey = some key → dict key = some v → v ≠ "" →
      (Script.updateSElem dict el).textContent = v) ∧
    (Script.applyTranslations lang s).1.elems =
      s.elems.map (Script.updateSElem (Script.translationsFor lang)) := by
  refine ⟨?_, ?_, rfl, ?_, ?_, ?_, ?_⟩
  · intro hnone
    by_cases hsel : e.dataEn.isSome ∧ e.dataAr.isSome
    · rcases hda : e.dataAttr lang with _ | t
      · constructor <;>
          · simp only [App.updateElem, App.updateOption]
            split_ifs <;> simp [hda]
      · have ht : t = "" := by
          by_contra ht
          simp [presentDataValue, hsel, hda, ht] at hnone
        subst ht
        constructor <;>
          · simp only [App.updateElem, App.updateOption]
            split_ifs <;> simp [hda]
    · have h1 : ¬(e.tagName = "OPTION" ∧ e.dataEn.isSome ∧ e.dataAr.isSome) :=
        fun hc => hsel ⟨hc.2.1, hc.2.2⟩
      exact ⟨by simp [App.updateElem, hsel], by simp [App.updateOption, h1]⟩
  · intro t hsome
    unfold presentDataValue at hsome
    split_ifs at hsome with hsel
    · rcases hda : e.dataAttr lang with _ | u <;> rw [hda] at hsome
      · exact absurd hsome (by simp)
      · by_cases hu : u = ""
        · simp [hu] at hsome
        · simp [hu] at hsome
          subst hsome
          simp [App.updateElem, hsel, hda, hu]
  · intro hk
    simp only [updateSElem_textContent, hk]
  · intro key hk hd
    rcases hd with hd | hd <;> simp only [updateSElem_textContent, hk, hd] <;> simp
  · intro key v hk hd hv
    simp only [updateSElem_textContent, hk, hd]
    simp [hv]
  · by_cases hok : s.storageOk = true <;> simp [Script.applyTranslations, hok]

/-- An element carrying only an English attribute (not selected by the
translation walk). -/
def exElemMissing : App.Elem :=
  { tagName := "P", etype := "", dataEn := some "Hello", dataAr := none
    content := "Hello", placeholder := "" }

/-- An element carrying both language attributes. -/
def exElemPresent : App.Elem :=
  { tagName := "P", etype := "", dataEn := some "Hello", dataAr := some "مرحبا"
    content := "Hello", placeholder := "" }

/-- A catalog-driven element with a key absent from the dictionaries. -/
def exSElemMissing : Script.SElem :=
  { i18nKey := some "unknownKey", placeholderKey := none
    textContent := "keep", placeholder := "" }

/-- Witness for claim C8 at concrete elements: a node without an Arabic
attribute stays unchanged under Arabic, a node with both attributes is
updated, and a catalog node with an unknown key keeps its text. -/
theorem claim8_witness :
    App.updateElem "ar" exElemMissing = exElemMissing ∧
    App.updateOption "ar" exElemMissing = exElemMissing ∧
    App.updateElem "ar" exElemPresent = App.Elem.writeText exElemPresent "مرحبا" ∧
    (Script.updateSElem Script.enDict exSElemMissing).textContent = "keep" := by
  have h := claim8_missing_translation "ar" exElemMissing Script.enDict exSElemMissing
    exDoc exSState
  have h' := claim8_missing_translation "ar" exElemPresent Script.enDict exSElemMissing
    exDoc exSState
  obtain ⟨h1, h2⟩ := h.1 (by decide)
  exact ⟨h1, h2, h'.2.1 "مرحبا" (by decide),
    h.2.2.2.2.1 "unknownKey" rfl (Or.inl (by decide))⟩

/-! Claim C9. -/

/-- Claim C9: for every (data resource, target container) pair, a failed
fetch or parse renders the fixed error placeholder as the entire content of
that container - so the container holds the placeholder and no entries - with
exactly one fetch request issued (no automatic retry), and affects no other
container.  Stated generically for any present container and template, and
instantiated for both pairs of `loadJSONContent` (news into `#news-list`,
events into `#events-list`), together with the non-interference of each
pair's outcome with the other container's result. -/
theorem claim9_fetch_failure (fmtDate : String → String) (ne ee : Bool)
    (newsOrig eventsOrig : String)
    (newsOutcome eventsOutcome o₁ o₂ : Option (List (String × Script.JField))) :
    (∀ (orig : String) (templateFn : Script.ContentItem → String),
      Script.fetchAndRender true orig none templateFn = (Script.loadErrorPlaceholder, 1)) ∧
    (Script.loadJSONContent fmtDate true newsOrig none
        ee eventsOrig eventsOutcome).1.1 = Script.loadErrorPlaceholder ∧
    (Script.loadJSONContent fmtDate true newsOrig none
        ee eventsOrig eventsOutcome).1.2 = 1 ∧
    (Script.loadJSONContent fmtDate ne newsOrig newsOutcome
        true eventsOrig none).2.1 = Script.loadErrorPlaceholder ∧
    (Script.loadJSONContent fmtDate ne newsOrig newsOutcome
        true eventsOrig none).2.2 = 1 ∧
    (Script.loadJSONContent fmtDate ne newsOrig newsOutcome
        ee eventsOrig o₁).1 =
      (Script.loadJSONContent fmtDate ne newsOrig newsOutcome
        ee eventsOrig o₂).1 ∧
    (Script.loadJSONContent fmtDate ne newsOrig o₁
        ee eventsOrig eventsOutcome).2 =
      (Script.loadJSONContent fmtDate ne newsOrig o₂
        ee eventsOrig eventsOutcome).2 :=
  ⟨fun _ _ => rfl, rfl, rfl, rfl, rfl, rfl, rfl⟩

end PharmacyClub
